import Mathlib

/-!
Shallow embedding of the Trading Journal web application (`app.py`).

The embedding covers the cloud-mode (JSON-file-backed) entry store and the
request handlers the verified properties are about:

* the journal entry record written by `api_save_journal` / updated by
  `api_update_entry` (cloud mode),
* `add_cloud_entry`, `api_save_journal`, `api_list_entries`,
  `api_delete_entry`, `api_update_entry`, `api_clear_journal` on the
  cloud store, and the local-mode branches of delete/update,
* `load_cloud_journal` at the raw-JSON level,
* `load_config` over the four configuration keys,
* the sentiment classifier inside `get_market_data`,
* the prompt construction inside `api_process_entry`.

HTTP responses are modelled as small inductive types carrying the status
code and the payload fields the handlers actually produce.  File I/O and
the outbound LLM call are abstracted as explicit parameters (an outcome
value for a file operation, a function for the LLM response); everything
else is translated statement by statement from the Python source.
-/

/-- A sentiment object as produced by `get_market_data` (`label`, `color`,
`icon` fields). -/
structure Sentiment where
  label : String
  color : String
  icon : String
deriving DecidableEq, Repr

/-- A journal entry as stored in the cloud JSON store.  Entries written by
`api_save_journal` always carry `timestamp`, `sentiment`, `content` and
`saved_at`; `api_update_entry` additionally sets `edited` and `preview`
(absent on fresh entries, hence `Option`).  An absent or empty sentiment
dict is `none`. -/
structure CloudEntry where
  timestamp : String
  sentiment : Option Sentiment
  content : String
  saved_at : String
  edited : Option String
  preview : Option String
deriving DecidableEq, Repr

/-!  ## Sentiment classifier (`get_market_data`, app.py lines 345-371)

`spy_ch` is the day-over-day percent change of `^GSPC` (default 0 when the
ticker is missing) and `vix` the VIX price (default 20).  Python floats are
modelled as exact rationals; the classifier only compares against the
constants 1, 0.3, -0.3, -1, 15, 25, 30. -/

/-- The sentiment score: SPX-change bucket points, then the VIX `if/elif`,
then the extra `if vix > 30` deduction, exactly as in `get_market_data`. -/
def sentiment_score (spy_ch vix : ℚ) : ℤ :=
  let score : ℤ := 0
  let score := if spy_ch > 1 then score + 2
    else if spy_ch > 3/10 then score + 1
    else if spy_ch < -1 then score - 2
    else if spy_ch < -3/10 then score - 1
    else score
  let score := if vix < 15 then score + 1
    else if vix > 25 then score - 1
    else score
  if vix > 30 then score - 1 else score

/-- The five-way label chosen from the score in `get_market_data`. -/
def sentiment_of_score (score : ℤ) : Sentiment :=
  if score ≥ 3 then ⟨"STRONGLY BULLISH", "green", "🟢"⟩
  else if score ≥ 1 then ⟨"BULLISH", "lightgreen", "🟢"⟩
  else if score ≤ -3 then ⟨"STRONGLY BEARISH", "red", "🔴"⟩
  else if score ≤ -1 then ⟨"BEARISH", "salmon", "🔴"⟩
  else ⟨"NEUTRAL", "yellow", "🟡"⟩

/-- The sentiment label computed by `get_market_data` from the SPX change
and the VIX price. -/
def sentiment_label (spy_ch vix : ℚ) : String :=
  (sentiment_of_score (sentiment_score spy_ch vix)).label

/-- C4: the sentiment label is a five-bucket classification of the
threshold score: it is always one of the five fixed strings, and each
label holds exactly on the stated score range. -/
theorem sentiment_label_five_buckets (spy_ch vix : ℚ) :
    (sentiment_label spy_ch vix = "STRONGLY BULLISH" ∨
      sentiment_label spy_ch vix = "BULLISH" ∨
      sentiment_label spy_ch vix = "NEUTRAL" ∨
      sentiment_label spy_ch vix = "BEARISH" ∨
      sentiment_label spy_ch vix = "STRONGLY BEARISH") ∧
    (sentiment_label spy_ch vix = "STRONGLY BULLISH" ↔
      3 ≤ sentiment_score spy_ch vix) ∧
    (sentiment_label spy_ch vix = "BULLISH" ↔
      1 ≤ sentiment_score spy_ch vix ∧ sentiment_score spy_ch vix < 3) ∧
    (sentiment_label spy_ch vix = "STRONGLY BEARISH" ↔
      sentiment_score spy_ch vix ≤ -3) ∧
    (sentiment_label spy_ch vix = "BEARISH" ↔
      -3 < sentiment_score spy_ch vix ∧ sentiment_score spy_ch vix ≤ -1) ∧
    (sentiment_label spy_ch vix = "NEUTRAL" ↔
      -1 < sentiment_score spy_ch vix ∧ sentiment_score spy_ch vix < 1) := by
  unfold sentiment_label sentiment_of_score
  split_ifs with h1 h2 h3 h4 <;>
    refine ⟨by simp, ?_, ?_, ?_, ?_, ?_⟩ <;>
    first
      | exact iff_of_true rfl (by omega)
      | exact iff_of_false (by decide) (by omega)

/-!  ## Cloud entry store (app.py lines 263-289, 541-564, 777-800, 928-996)

The store is the `entries` list of the per-user JSON journal.  `load` /
`save` of the JSON file are abstracted: a handler receives the current
entries list and returns the response together with the entries list it
writes back. -/

/-- `add_cloud_entry`: load the journal, append the entry, save
(app.py lines 285-289). -/
def add_cloud_entry (store : List CloudEntry) (entry : CloudEntry) :
    List CloudEntry :=
  store ++ [entry]

/-- An entry as it arrives in a `save-journal` request body: each field may
be absent (`entry.get(...)` with a default). -/
structure ReqEntry where
  timestamp : Option String
  sentiment : Option Sentiment
  content : Option String
deriving DecidableEq, Repr

/-- The `cloud_entry` dict built inside `api_save_journal` (app.py lines
553-560): missing timestamp defaults to the current EST timestamp `nowTs`,
missing sentiment to the empty dict, missing content to the empty string,
and `saved_at` is the current UTC time `savedAt`. -/
def normalize_entry (nowTs savedAt : String) (r : ReqEntry) : CloudEntry :=
  { timestamp := r.timestamp.getD nowTs
    sentiment := r.sentiment
    content := r.content.getD ""
    saved_at := savedAt
    edited := none
    preview := none }

/-- Response of `api_save_journal`: an error with HTTP status and message,
or success with the reported `count`. -/
inductive SaveResp where
  | err (status : Nat) (msg : String)
  | ok (count : Nat)
deriving DecidableEq, Repr

/-- Cloud-mode branch of `api_save_journal` (app.py lines 544-564): reject
an empty request list with 400, otherwise `add_cloud_entry` each normalized
entry in order and report `count = len(entries)`. -/
def api_save_journal_cloud (nowTs savedAt : String) (store : List CloudEntry)
    (req : List ReqEntry) : SaveResp × List CloudEntry :=
  if req = [] then (.err 400 "No entries to save", store)
  else
    (.ok req.length,
      req.foldl (fun st r => add_cloud_entry st (normalize_entry nowTs savedAt r)) store)

/-- One element of the list returned by `api_list_entries` (cloud mode). -/
structure EntryView where
  timestamp : String
  sentiment : String
  preview : String
  content : String
deriving DecidableEq, Repr

/-- The projection `api_list_entries` applies to each stored entry
(app.py lines 789-796): the sentiment label (empty for a missing
sentiment), and a preview that is the first 100 characters of the content
followed by an ellipsis whenever the content is non-empty. -/
def list_project (e : CloudEntry) : EntryView :=
  { timestamp := e.timestamp
    sentiment := ((e.sentiment.map Sentiment.label).getD "")
    preview := if e.content ≠ "" then e.content.take 100 ++ "..." else ""
    content := e.content }

/-- Response of `api_list_entries`. -/
inductive ListResp where
  | empty (message : String)
  | ok (entries : List EntryView)
deriving DecidableEq, Repr

/-- Cloud-mode branch of `api_list_entries` (app.py lines 783-800): empty
store reported with a message; otherwise project every entry in store
order, reverse, and keep the first 10 of the reversed list. -/
def api_list_entries_cloud (store : List CloudEntry) : ListResp :=
  if store = [] then .empty "No journal entries found"
  else .ok (((store.map list_project).reverse).take 10)

/-- Response of `api_delete_entry`: on success the deleted entry's
timestamp is reported. -/
inductive DeleteResp where
  | err (status : Nat) (msg : String)
  | ok (deleted : String)
deriving DecidableEq, Repr

/-- `api_delete_entry` (app.py lines 928-957).  `idx` is the parsed
`index` field of the request (`none` when absent).  In cloud mode a
negative index is first converted by adding the store length, then an
in-range index is popped from the entries list and the journal saved back;
out of range is 404.  In local mode the request is rejected with 400. -/
def api_delete_entry (isCloud : Bool) (store : List CloudEntry)
    (idx : Option ℤ) : DeleteResp × List CloudEntry :=
  match idx with
  | none => (.err 400 "Missing entry index", store)
  | some i0 =>
    if isCloud then
      let i : ℤ := if i0 < 0 then (store.length : ℤ) + i0 else i0
      if h : 0 ≤ i ∧ i < (store.length : ℤ) then
        (.ok (store.get ⟨i.toNat, by omega⟩).timestamp, store.eraseIdx i.toNat)
      else (.err 404 "Entry not found", store)
    else (.err 400 "Delete not supported in local mode", store)

/-- Response of `api_update_entry`. -/
inductive UpdateResp where
  | err (status : Nat) (msg : String)
  | ok (msg : String)
deriving DecidableEq, Repr

/-- The preview text computed by `api_update_entry` (app.py lines
983-986): first 150 characters of the new content with newlines replaced
by spaces, plus an ellipsis when the content is longer than 150. -/
def make_preview (c : String) : String :=
  let p := (c.take 150).replace "\n" " "
  if c.length > 150 then p ++ "..." else p

/-- `api_update_entry` (app.py lines 959-996).  A missing index or a
missing/empty content is 400; in cloud mode an in-range index has its
entry's `content`, `edited` and `preview` fields updated in place and the
journal saved back, out of range is 404; local mode is rejected with
400. -/
def api_update_entry (isCloud : Bool) (editedTs : String)
    (store : List CloudEntry) (idx : Option ℤ) (content : Option String) :
    UpdateResp × List CloudEntry :=
  match idx with
  | none => (.err 400 "Missing entry index", store)
  | some i =>
    if content.getD "" = "" then (.err 400 "Missing content", store)
    else
      let c := content.getD ""
      if isCloud then
        if h : 0 ≤ i ∧ i < (store.length : ℤ) then
          (.ok "Entry updated",
            store.set i.toNat
              { store.get ⟨i.toNat, by omega⟩ with
                content := c
                edited := some editedTs
                preview := some (make_preview c) })
        else (.err 404 "Entry not found", store)
      else (.err 400 "Update not supported in local mode", store)

/-- `api_clear_journal` (app.py lines 998-1009), cloud branch: the journal
is overwritten with an empty entries list. -/
def api_clear_journal_cloud (_store : List CloudEntry) : List CloudEntry :=
  []

/-!  ## Entry processing (`api_process_entry`, app.py lines 488-539)

The outbound call to the LLM API is abstracted as a function from the
request (fixed system prompt plus the built user message) to the single
text response; timestamps and the market snapshot are parameters. -/

/-- The fixed system instruction sent with every LLM request
(app.py lines 140-162). -/
def SYSTEM_PROMPT : String :=
  "You are my Trading Journal. Each time I speak or ramble, convert my thoughts into a structured trading-journal entry. Extract and organize only what I actually say:\n\n‚Ä¢ My emotional state\n‚Ä¢ Market conditions I mentioned\n‚Ä¢ Trades I took or considered\n‚Ä¢ My reasoning and expectations\n‚Ä¢ Mistakes I noticed\n‚Ä¢ Lessons learned\n‚Ä¢ Follow-up items for the next session\n\nRules:\n‚Ä¢ Keep the tone neutral, factual, and concise.\n‚Ä¢ If I speak in fragments or ramble, infer structure but do not invent facts.\n‚Ä¢ Do not add commentary beyond what I explicitly said.\n‚Ä¢ Reorganize my thoughts into a clean, professional journal entry.\n\nEnd each entry with:\n‚Ä¢ A short 2‚Äì3 sentence summary\n‚Ä¢ 1‚Äì3 reflection questions that would help me improve\n\nFormat the entry with clear section headers using bullet points. Start with a header line showing the date and time provided.\n\nIf market data is provided, incorporate relevant observations into the Market Conditions section."

/-- A request to the LLM API: the system instruction and the user
message. -/
structure LlmRequest where
  system : String
  user : String
deriving DecidableEq, Repr

/-- The user message built by `api_process_entry` (app.py lines 503-512):
the timestamp line, then, when market inclusion is requested and a
snapshot is available, the formatted market block (`market`, the output of
`format_market_for_prompt`), then the raw text under a fixed prefix. -/
def build_message (timestamp : String) (include_market : Bool)
    (market : Option String) (raw : String) : String :=
  let msg := "Date/Time: " ++ timestamp ++ "\n\n"
  let msg :=
    if include_market then
      match market with
      | some m => msg ++ m ++ "\n\n"
      | none => msg
    else msg
  msg ++ "My trading thoughts:\n" ++ raw

/-- The `full_entry` JSON object returned by `api_process_entry`. -/
structure FullEntry where
  timestamp : String
  sentiment : Option Sentiment
  content : String
  raw_text : String
deriving DecidableEq, Repr

/-- Response of `api_process_entry`. -/
inductive ProcessResp where
  | err (status : Nat) (msg : String)
  | ok (entry : FullEntry)
deriving DecidableEq, Repr

/-- `api_process_entry` (app.py lines 488-539): empty text and missing API
key are 400; otherwise the message is built, sent with the fixed system
prompt, and the response text is returned verbatim as `content`.
`sentiment2` is the sentiment of the second `get_market_data` call
(app.py lines 526-527), which is independent of the snapshot used for the
prompt. -/
def api_process_entry (llm : LlmRequest → String) (apiKey timestamp : String)
    (include_market : Bool) (market : Option String)
    (sentiment2 : Option Sentiment) (raw : String) : ProcessResp :=
  if raw = "" then .err 400 "No text provided"
  else if apiKey = "" then .err 400 "API key not configured"
  else
    let msg := build_message timestamp include_market market raw
    let formatted := llm { system := SYSTEM_PROMPT, user := msg }
    .ok { timestamp := timestamp
          sentiment := sentiment2
          content := formatted
          raw_text := raw }

/-!  ## Local-mode handlers and exception dispatch (app.py lines 566-649,
730-775)

The local (Word-document) branches build the document and then perform
file I/O; a `PermissionError` or any other exception raised by the body is
caught by the handler's `except` clauses.  The I/O outcome is a
parameter. -/

/-- Outcome of the file operation performed by a local-mode handler body:
success, a `PermissionError` (file locked), or any other exception with
its message. -/
inductive PyOutcome where
  | ok
  | permissionError
  | exn (msg : String)
deriving DecidableEq, Repr

/-- Local-mode branch of `api_save_journal` together with its `except`
clauses (app.py lines 544-549, 566-649), as (HTTP status, payload
message): empty request is 400; then the document is written, a
`PermissionError` yields 500 with the fixed locked-file message, any other
exception 500 with `str(e)`. -/
def api_save_journal_local (req : List ReqEntry) (docSave : PyOutcome) :
    Nat × String :=
  if req = [] then (400, "No entries to save")
  else
    match docSave with
    | .ok => (200, "success")
    | .permissionError => (500, "File is open in another program")
    | .exn m => (500, m)

/-- Local-mode branch of `api_view_journal` together with its `except`
clauses (app.py lines 755-775): on success the non-empty stripped
paragraph texts are joined with newlines; a `PermissionError` yields 500
with the fixed locked-file message, any other exception 500 with
`str(e)`. -/
def api_view_journal_local (docRead : PyOutcome) (paragraphs : List String) :
    Nat × String :=
  match docRead with
  | .ok => (200, String.intercalate "\n" (paragraphs.filter (fun t => t ≠ "")))
  | .permissionError => (500, "Journal file is open in another program")
  | .exn m => (500, m)

/-!  ## Configuration (`load_config`, app.py lines 173-207) -/

/-- The four configuration keys handled by `load_config`. -/
inductive ConfigKey where
  | api_key
  | cloudinary_cloud_name
  | cloudinary_api_key
  | cloudinary_api_secret
deriving DecidableEq, Repr

/-- `load_config` restricted to one key (app.py lines 173-207).  `env k`
is the corresponding environment variable (`none` when unset), `file` the
parsed config file (`none` when missing, unreadable, or in cloud mode the
file is never read).  The key starts empty, a truthy environment value
overwrites it, and a file value is taken only when the key is still
falsy. -/
def load_config (isCloud : Bool) (env : ConfigKey → Option String)
    (file : Option (ConfigKey → Option String)) (k : ConfigKey) : String :=
  let base : String :=
    match env k with
    | some v => if v = "" then "" else v
    | none => ""
  if isCloud then base
  else
    match file with
    | some fd => if base = "" then (fd k).getD "" else base
    | none => base

/-!  ## Raw-JSON journal loading (`load_cloud_journal`, app.py lines
263-272)

`load_cloud_journal` returns whatever `json.load` parsed, so its shape is
modelled at the JSON level rather than over `CloudEntry`. -/

/-- A JSON value, as far as the journal file is concerned. -/
inductive JVal where
  | null
  | str (s : String)
  | num (n : ℤ)
  | arr (elems : List JVal)
  | obj (fields : List (String × JVal))

/-- Whether a JSON value is an object with a field named `k`. -/
def JVal.hasKey : JVal → String → Bool
  | .obj fields, k => fields.any (fun p => p.1 == k)
  | _, _ => false

/-- State of the per-user journal file on disk. -/
inductive JournalFile where
  | missing
  | unparseable
  | parsed (j : JVal)

/-- `load_cloud_journal` (app.py lines 263-272): a missing file or a
`json.load` failure yields the empty journal object; a successfully parsed
file is returned as-is. -/
def load_cloud_journal : JournalFile → JVal
  | .missing => .obj [("entries", .arr [])]
  | .unparseable => .obj [("entries", .arr [])]
  | .parsed j => j

/-- The document written by `save_cloud_journal` for an entries list
(app.py lines 274-283 with the journal dicts built by the handlers): an
object with the single `entries` key. -/
def save_cloud_journal_doc (entries : List JVal) : JVal :=
  .obj [("entries", .arr entries)]

/-!  ## Theorems -/

theorem foldl_add_cloud_entry (f : ReqEntry → CloudEntry) :
    ∀ (req : List ReqEntry) (store : List CloudEntry),
      req.foldl (fun st r => add_cloud_entry st (f r)) store = store ++ req.map f := by
  intro req
  induction req with
  | nil => intro store; simp
  | cons r rs ih =>
    intro store
    rw [List.foldl_cons, ih, add_cloud_entry]
    simp

/-- C8: saving entries in cloud mode is append-only: for a non-empty
request list the stored entries become the old entries followed by the
normalized request entries in request order, every old entry is unchanged
at its position, and the response reports `count` equal to the request
length. -/
theorem api_save_journal_cloud_append_only (nowTs savedAt : String)
    (store : List CloudEntry) (req : List ReqEntry) (h : req ≠ []) :
    (api_save_journal_cloud nowTs savedAt store req).1 = .ok req.length ∧
    (api_save_journal_cloud nowTs savedAt store req).2 =
      store ++ req.map (normalize_entry nowTs savedAt) ∧
    ∀ j, j < store.length →
      ((api_save_journal_cloud nowTs savedAt store req).2)[j]? = store[j]? := by
  unfold api_save_journal_cloud
  rw [if_neg h]
  refine ⟨rfl, foldl_add_cloud_entry _ req store, ?_⟩
  intro j hj
  rw [foldl_add_cloud_entry _ req store, List.getElem?_append_left hj]

/-- Sample stored entry used to instantiate theorems with hypotheses. -/
def entry0 : CloudEntry :=
  { timestamp := "t0", sentiment := none, content := "c0"
    saved_at := "s0", edited := none, preview := none }

/-- Second sample stored entry. -/
def entry1 : CloudEntry :=
  { timestamp := "t1", sentiment := some ⟨"BULLISH", "lightgreen", "🟢"⟩
    content := "c1", saved_at := "s1", edited := none, preview := none }

/-- Sample request entry. -/
def req0 : ReqEntry :=
  { timestamp := some "t2", sentiment := none, content := some "c2" }

theorem api_save_journal_cloud_append_only_witness :
    ([req0] : List ReqEntry) ≠ [] ∧
    ((api_save_journal_cloud "N" "S" [entry0] [req0]).1 = .ok [req0].length ∧
      (api_save_journal_cloud "N" "S" [entry0] [req0]).2 =
        [entry0] ++ [req0].map (normalize_entry "N" "S") ∧
      ∀ j, j < [entry0].length →
        ((api_save_journal_cloud "N" "S" [entry0] [req0]).2)[j]? = [entry0][j]?) :=
  ⟨by decide, api_save_journal_cloud_append_only "N" "S" [entry0] [req0] (by decide)⟩

/-- C2: after appending one entry via save-journal in cloud mode, the
list-entries response is the projected stored entries reversed and
truncated to 10, and the newly appended entry is at position 0 of that
list. -/
theorem append_then_list_newest_first (nowTs savedAt : String)
    (store : List CloudEntry) (r : ReqEntry) :
    (api_save_journal_cloud nowTs savedAt store [r]).1 = .ok 1 ∧
    api_list_entries_cloud (api_save_journal_cloud nowTs savedAt store [r]).2 =
      .ok ((((api_save_journal_cloud nowTs savedAt store [r]).2).map
        list_project).reverse.take 10) ∧
    ((((api_save_journal_cloud nowTs savedAt store [r]).2).map
        list_project).reverse.take 10).head? =
      some (list_project (normalize_entry nowTs savedAt r)) := by
  have hs : (api_save_journal_cloud nowTs savedAt store [r]).2 =
      store ++ [normalize_entry nowTs savedAt r] := by
    unfold api_save_journal_cloud
    rw [if_neg (by simp)]
    simpa using foldl_add_cloud_entry (normalize_entry nowTs savedAt) [r] store
  refine ⟨?_, ?_, ?_⟩
  · unfold api_save_journal_cloud
    rw [if_neg (by simp)]
    rfl
  · unfold api_list_entries_cloud
    rw [if_neg (by rw [hs]; simp)]
  · rw [hs]
    simp [List.head?_take]

/-- C1: in cloud mode, deleting an in-range index removes exactly that
entry: the length drops by one, entries before the index keep their
positions, entries after it shift down by one, and the response is success
with the deleted entry's timestamp. -/
theorem api_delete_entry_removes_exactly_one (store : List CloudEntry)
    (i : ℕ) (hi : i < store.length) :
    ((api_delete_entry true store (some (i : ℤ))).2).length = store.length - 1 ∧
    (∀ j, j < i → ((api_delete_entry true store (some (i : ℤ))).2)[j]? = store[j]?) ∧
    (∀ j, i ≤ j → ((api_delete_entry true store (some (i : ℤ))).2)[j]? = store[j + 1]?) ∧
    (api_delete_entry true store (some (i : ℤ))).1 =
      .ok (store.get ⟨i, hi⟩).timestamp := by
  have h0 : ¬ ((i : ℤ) < 0) := by omega
  have h1 : 0 ≤ (i : ℤ) ∧ (i : ℤ) < (store.length : ℤ) := by
    constructor <;> omega
  have hred : api_delete_entry true store (some (i : ℤ)) =
      (.ok (store.get ⟨i, hi⟩).timestamp, store.eraseIdx i) := by
    simp only [api_delete_entry, if_true, h0, if_false, reduceIte]
    rw [dif_pos h1]
    rfl
  rw [hred]
  refine ⟨List.length_eraseIdx_of_lt hi, ?_, ?_, rfl⟩
  · intro j hj
    exact List.getElem?_eraseIdx_of_lt store i j hj
  · intro j hj
    exact List.getElem?_eraseIdx_of_ge store i j hj

theorem api_delete_entry_removes_exactly_one_witness :
    (0 : ℕ) < [entry0, entry1].length ∧
    (((api_delete_entry true [entry0, entry1] (some ((0 : ℕ) : ℤ))).2).length =
        [entry0, entry1].length - 1 ∧
      (∀ j, j < 0 →
        ((api_delete_entry true [entry0, entry1] (some ((0 : ℕ) : ℤ))).2)[j]? =
          [entry0, entry1][j]?) ∧
      (∀ j, 0 ≤ j →
        ((api_delete_entry true [entry0, entry1] (some ((0 : ℕ) : ℤ))).2)[j]? =
          [entry0, entry1][j + 1]?) ∧
      (api_delete_entry true [entry0, entry1] (some ((0 : ℕ) : ℤ))).1 =
        .ok "t0") :=
  have h : (0 : ℕ) < [entry0, entry1].length := by decide
  ⟨h, (api_delete_entry_removes_exactly_one [entry0, entry1] 0 h).1,
    (api_delete_entry_removes_exactly_one [entry0, entry1] 0 h).2.1,
    (api_delete_entry_removes_exactly_one [entry0, entry1] 0 h).2.2.1,
    (api_delete_entry_removes_exactly_one [entry0, entry1] 0 h).2.2.2⟩

/-- C10: in cloud mode, updating an in-range index with non-empty content
rewrites only that entry's `content`, `edited` and `preview` fields (the
preview being derived from the first 150 characters of the new content),
leaves its `timestamp` and `sentiment` and every other entry unchanged,
and reports success. -/
theorem api_update_entry_updates_only_target (editedTs : String)
    (store : List CloudEntry) (i : ℕ) (c : String)
    (hi : i < store.length) (hc : c ≠ "") :
    (api_update_entry true editedTs store (some (i : ℤ)) (some c)).1 =
      .ok "Entry updated" ∧
    ((api_update_entry true editedTs store (some (i : ℤ)) (some c)).2)[i]? =
      some { store.get ⟨i, hi⟩ with
        content := c
        edited := some editedTs
        preview := some (make_preview c) } ∧
    (∀ j, j ≠ i →
      ((api_update_entry true editedTs store (some (i : ℤ)) (some c)).2)[j]? =
        store[j]?) ∧
    ((api_update_entry true editedTs store (some (i : ℤ)) (some c)).2).length =
      store.length ∧
    (((api_update_entry true editedTs store (some (i : ℤ)) (some c)).2)[i]?.map
        CloudEntry.timestamp) = (store[i]?.map CloudEntry.timestamp) ∧
    (((api_update_entry true editedTs store (some (i : ℤ)) (some c)).2)[i]?.map
        CloudEntry.sentiment) = (store[i]?.map CloudEntry.sentiment) := by
  have h1 : 0 ≤ (i : ℤ) ∧ (i : ℤ) < (store.length : ℤ) := by
    constructor <;> omega
  have hred : api_update_entry true editedTs store (some (i : ℤ)) (some c) =
      (.ok "Entry updated",
        store.set i
          { store.get ⟨i, hi⟩ with
            content := c
            edited := some editedTs
            preview := some (make_preview c) }) := by
    simp only [api_update_entry, Option.getD_some, if_neg hc, if_true, reduceIte]
    rw [dif_pos h1]
    rfl
  rw [hred]
  refine ⟨rfl, List.getElem?_set_self hi, ?_, List.length_set store i _, ?_, ?_⟩
  · intro j hj
    exact List.getElem?_set_ne (fun h => hj h.symm)
  · rw [List.getElem?_set_self hi, List.getElem?_eq_getElem hi]
    rfl
  · rw [List.getElem?_set_self hi, List.getElem?_eq_getElem hi]
    rfl

theorem api_update_entry_updates_only_target_witness :
    (1 : ℕ) < [entry0, entry1].length ∧ "new" ≠ "" ∧
    ((api_update_entry true "E" [entry0, entry1] (some ((1 : ℕ) : ℤ))
        (some "new")).1 = .ok "Entry updated" ∧
      ((api_update_entry true "E" [entry0, entry1] (some ((1 : ℕ) : ℤ))
          (some "new")).2)[1]? =
        some { entry1 with
          content := "new"
          edited := some "E"
          preview := some (make_preview "new") } ∧
      (∀ j, j ≠ 1 →
        ((api_update_entry true "E" [entry0, entry1] (some ((1 : ℕ) : ℤ))
            (some "new")).2)[j]? = [entry0, entry1][j]?) ∧
      ((api_update_entry true "E" [entry0, entry1] (some ((1 : ℕ) : ℤ))
          (some "new")).2).length = [entry0, entry1].length ∧
      (((api_update_entry true "E" [entry0, entry1] (some ((1 : ℕ) : ℤ))
          (some "new")).2)[1]?.map CloudEntry.timestamp) =
        ([entry0, entry1][1]?.map CloudEntry.timestamp) ∧
      (((api_update_entry true "E" [entry0, entry1] (some ((1 : ℕ) : ℤ))
          (some "new")).2)[1]?.map CloudEntry.sentiment) =
        ([entry0, entry1][1]?.map CloudEntry.sentiment)) :=
  have h : (1 : ℕ) < [entry0, entry1].length := by decide
  ⟨h, by decide,
    api_update_entry_updates_only_target "E" [entry0, entry1] 1 "new" h
      (by decide)⟩

/-- C3: when not in cloud mode, delete-entry and update-entry reject every
request with HTTP 400 and leave the stored journal unchanged. -/
theorem local_mode_rejects_delete_and_update (store : List CloudEntry)
    (idx : Option ℤ) (content : Option String) (editedTs : String) :
    ((api_delete_entry false store idx).2 = store ∧
      ∃ m, (api_delete_entry false store idx).1 = .err 400 m) ∧
    ((api_update_entry false editedTs store idx content).2 = store ∧
      ∃ m, (api_update_entry false editedTs store idx content).1 = .err 400 m) := by
  constructor
  · cases idx with
    | none => exact ⟨rfl, "Missing entry index", rfl⟩
    | some i => exact ⟨rfl, "Delete not supported in local mode", rfl⟩
  · cases idx with
    | none => exact ⟨rfl, "Missing entry index", rfl⟩
    | some i =>
      by_cases hc : content.getD "" = ""
      · simp only [api_update_entry, if_pos hc]
        exact ⟨trivial, "Missing content", rfl⟩
      · simp only [api_update_entry, if_neg hc]
        exact ⟨rfl, "Update not supported in local mode", rfl⟩

/-- C5: for non-empty text (and a configured API key), the message sent
to the LLM is the timestamp line, then the market block exactly when
market inclusion is requested and a snapshot is available, then the raw
text prefixed by the fixed marker; it is sent with the fixed system
prompt, and the returned `content` is the LLM's response verbatim. -/
theorem api_process_entry_prompt_order_and_verbatim
    (llm : LlmRequest → String) (apiKey timestamp : String)
    (include_market : Bool) (market : Option String)
    (sentiment2 : Option Sentiment) (raw : String)
    (hraw : raw ≠ "") (hkey : apiKey ≠ "") :
    api_process_entry llm apiKey timestamp include_market market sentiment2 raw =
      .ok { timestamp := timestamp
            sentiment := sentiment2
            content := llm { system := SYSTEM_PROMPT
                             user := build_message timestamp include_market market raw }
            raw_text := raw } ∧
    (∀ m, build_message timestamp true (some m) raw =
      "Date/Time: " ++ timestamp ++ "\n\n" ++ m ++ "\n\n" ++
        "My trading thoughts:\n" ++ raw) ∧
    (build_message timestamp true none raw =
      "Date/Time: " ++ timestamp ++ "\n\n" ++ "My trading thoughts:\n" ++ raw) ∧
    (∀ m, build_message timestamp false m raw =
      "Date/Time: " ++ timestamp ++ "\n\n" ++ "My trading thoughts:\n" ++ raw) := by
  refine ⟨?_, fun m => rfl, rfl, fun m => rfl⟩
  unfold api_process_entry
  rw [if_neg hraw, if_neg hkey]

theorem api_process_entry_prompt_order_and_verbatim_witness :
    "thoughts" ≠ "" ∧ "key" ≠ "" ∧
    (api_process_entry (fun r => r.user) "key" "TS" true (some "MKT") none
        "thoughts" =
      .ok { timestamp := "TS"
            sentiment := none
            content := (fun r : LlmRequest => r.user)
              { system := SYSTEM_PROMPT
                user := build_message "TS" true (some "MKT") "thoughts" }
            raw_text := "thoughts" } ∧
      (∀ m, build_message "TS" true (some m) "thoughts" =
        "Date/Time: " ++ "TS" ++ "\n\n" ++ m ++ "\n\n" ++
          "My trading thoughts:\n" ++ "thoughts") ∧
      (build_message "TS" true none "thoughts" =
        "Date/Time: " ++ "TS" ++ "\n\n" ++ "My trading thoughts:\n" ++ "thoughts") ∧
      (∀ m, build_message "TS" false m "thoughts" =
        "Date/Time: " ++ "TS" ++ "\n\n" ++ "My trading thoughts:\n" ++ "thoughts")) :=
  ⟨by decide, by decide,
    api_process_entry_prompt_order_and_verbatim (fun r => r.user) "key" "TS"
      true (some "MKT") none "thoughts" (by decide) (by decide)⟩

/-- C6 counterexample: a save-journal request that hits a locked journal
file (`PermissionError`) is answered with HTTP 500 — the same status as
the generic exception path — not with a status distinct from 500. -/
theorem locked_file_same_status_as_generic :
    (api_save_journal_local [req0] .permissionError).1 = 500 ∧
    (api_save_journal_local [req0] (.exn "boom")).1 = 500 ∧
    ¬ (api_save_journal_local [req0] .permissionError).1 ≠ 500 :=
  ⟨rfl, rfl, fun h => h rfl⟩

/-- C6 amended: missing input (empty text to process-entry, empty entry
list to save-journal) is rejected with the specific status 400 and a JSON
error payload, and a locked journal file (`PermissionError`) is recognized
by a fixed specific error message — but it is returned with the same HTTP
500 status as the generic exception path, not with a distinct status. -/
theorem recognized_error_conditions (llm : LlmRequest → String)
    (apiKey timestamp : String) (include_market : Bool)
    (market : Option String) (sentiment2 : Option Sentiment)
    (r : ReqEntry) (rest : List ReqEntry) (outcome : PyOutcome)
    (m : String) (paragraphs : List String) :
    api_process_entry llm apiKey timestamp include_market market sentiment2 "" =
      .err 400 "No text provided" ∧
    api_save_journal_local [] outcome = (400, "No entries to save") ∧
    api_save_journal_local (r :: rest) .permissionError =
      (500, "File is open in another program") ∧
    api_save_journal_local (r :: rest) (.exn m) = (500, m) ∧
    api_view_journal_local .permissionError paragraphs =
      (500, "Journal file is open in another program") ∧
    api_view_journal_local (.exn m) paragraphs = (500, m) :=
  ⟨rfl, rfl, rfl, rfl, rfl, rfl⟩

/-- C7 counterexample: an environment variable that is set but empty is
treated like an unset one (`if env_val:` at app.py line 192): with the
api_key environment variable set to the empty string and the config file
holding "F", load_config returns the file value "F", not the environment
value — so a set environment variable does not always take priority, and
file values are used for a key whose environment variable is set. -/
theorem load_config_empty_env_counterexample :
    (fun _ : ConfigKey => some "") ConfigKey.api_key = some "" ∧
    load_config false (fun _ => some "")
      (some (fun _ => some "F")) ConfigKey.api_key = "F" ∧
    load_config false (fun _ => some "")
      (some (fun _ => some "F")) ConfigKey.api_key ≠ "" :=
  ⟨rfl, rfl, by decide⟩

/-- C7 amended: environment variables set to a non-empty value take
priority over the config file: such a value is returned regardless of
mode and file; in cloud mode the file never contributes; with the
environment variable unset — or set to the empty string, which the code
treats the same — and a readable file in local mode, the file value is
returned; and without a readable file the result is the
environment-derived value alone. -/
theorem load_config_env_priority (isCloud : Bool)
    (env : ConfigKey → Option String)
    (file : Option (ConfigKey → Option String)) (k : ConfigKey) :
    (∀ v, env k = some v → v ≠ "" → load_config isCloud env file k = v) ∧
    (load_config true env file k = load_config true env none k) ∧
    (env k = none → ∀ fd, file = some fd →
      load_config false env (some fd) k = (fd k).getD "") ∧
    (env k = some "" → ∀ fd, file = some fd →
      load_config false env (some fd) k = (fd k).getD "") ∧
    (load_config isCloud env none k =
      match env k with
      | some v => if v = "" then "" else v
      | none => "") := by
  refine ⟨?_, ?_, ?_, ?_, ?_⟩
  · intro v hv hne
    simp only [load_config, hv, if_neg hne]
    cases isCloud <;> cases file <;> rfl
  · unfold load_config
    cases file <;> rfl
  · intro he fd hfd
    simp [load_config, he]
  · intro he fd hfd
    simp [load_config, he]
  · unfold load_config
    cases isCloud <;> cases env k <;> rfl

theorem load_config_env_priority_witness :
    (fun _ : ConfigKey => some "E") ConfigKey.api_key = some "E" ∧
    "E" ≠ "" ∧
    load_config false (fun _ => some "E")
      (some (fun _ => some "F")) ConfigKey.api_key = "E" :=
  ⟨rfl, by decide,
    (load_config_env_priority false (fun _ => some "E")
        (some (fun _ => some "F")) ConfigKey.api_key).1 "E" rfl (by decide)⟩

/-- C9 counterexample: a journal file whose contents parse as a JSON
object without an `entries` key is returned as-is by load_cloud_journal,
so the result does not always contain an `entries` key. -/
theorem load_cloud_journal_counterexample :
    JVal.hasKey (load_cloud_journal (.parsed (.obj []))) "entries" = false :=
  rfl

/-- C9 amended: load_cloud_journal is total and never raises: a missing
or unparseable file yields the empty journal object (which has the
`entries` key), and a parsed file is returned as-is — so the result has
an `entries` key whenever the file was written by save_cloud_journal,
though not for arbitrary hand-made JSON. -/
theorem load_cloud_journal_total_shape :
    load_cloud_journal .missing = .obj [("entries", .arr [])] ∧
    load_cloud_journal .unparseable = .obj [("entries", .arr [])] ∧
    (∀ j, load_cloud_journal (.parsed j) = j) ∧
    (∀ es, JVal.hasKey
      (load_cloud_journal (.parsed (save_cloud_journal_doc es))) "entries" = true) ∧
    JVal.hasKey (load_cloud_journal .missing) "entries" = true ∧
    JVal.hasKey (load_cloud_journal .unparseable) "entries" = true :=
  ⟨rfl, rfl, fun _ => rfl, fun _ => rfl, rfl, rfl⟩
